import Mathlib

/-!
# Verification of the environment-detection Prometheus exporter

Shallow embedding of `microservice.py`: an `EnvironmentDetector` that
classifies the host as container / vm / hardware / unknown, a labeled
gauge metric updated from that classification, and a `main` routine that
binds an HTTP port with a single fallback and exits with a status code.

The outside world visible to the program (pseudo-files, environment
variables, external command runs) is reified as an `Env` record; each
Python function becomes a Lean function over `Env`.  Exceptions are made
explicit: a probe that can let an exception escape returns `Except`,
probes whose bodies are wrapped in a catch-all are total.
-/

namespace Kasper

/-- Test whether `needle` is an initial segment of `hay`. -/
def charListPre : List Char → List Char → Bool
  | [], _ => true
  | _ :: _, [] => false
  | a :: as, b :: bs => a == b && charListPre as bs

/-- Test whether `needle` occurs contiguously inside `hay`
(the semantics of Python's `needle in hay` on strings). -/
def charListSub (needle : List Char) : List Char → Bool
  | [] => charListPre needle []
  | h :: t => charListPre needle (h :: t) || charListSub needle t

/-- ASCII lower-casing, as a character list (the semantics of Python's
`str.lower` on the ASCII content scanned here). -/
def lowerChars (s : String) : List Char := s.toList.map Char.toLower

/-- Python `needle in hay.lower()`. -/
def lowerContains (hay needle : String) : Bool :=
  charListSub needle.toList (lowerChars hay)

/-- How a pseudo-file (`/proc/1/cgroup`, `/proc/self/cgroup`,
`/proc/cpuinfo`) presents itself to the program: missing
(`os.path.exists` is false / `open` raises `FileNotFoundError`),
readable with some content, or raising an `OSError`-like exception on
open/read despite existing. -/
inductive FileView
  | absent
  | readable (content : String)
  | readError
deriving DecidableEq

/-- Outcome of a `subprocess.run` call: the call returned (with a return
code and captured stdout), it raised one of the exception types the
caller catches (`TimeoutExpired`, `CalledProcessError`,
`FileNotFoundError`), or it raised an exception outside that tuple. -/
inductive CmdResult
  | completed (returncode : Int) (stdout : String)
  | caughtFailure
  | unexpectedError (msg : String)
deriving DecidableEq

/-- The external world as read by one detection run. `envVars` is the
set of names present in `os.environ`. -/
structure Env where
  proc1Cgroup : FileView
  procSelfCgroup : FileView
  procCpuinfo : FileView
  envVars : List String
  cpuid : CmdResult
  wmic : CmdResult

/-- Signatures looked for in `/proc/1/cgroup` (microservice.py line 41). -/
def proc1Signatures : List String := ["docker", "containerd", "kubepods"]

/-- `container_indicators` for `/proc/self/cgroup` (line 48). -/
def container_indicators : List String :=
  ["docker", "lxc", "containerd", "kubepods", "system.slice/docker"]

/-- `container_env_vars` (line 53). -/
def container_env_vars : List String :=
  ["DOCKER_CONTAINER", "container", "KUBERNETES_SERVICE_HOST"]

/-- `vm_signatures` scanned in `cpuid` output (lines 71-74). -/
def vm_signatures : List String :=
  ["vmware", "virtualbox", "kvm", "qemu", "xen",
   "hyperv", "microsoft hv", "parallels", "bochs"]

/-- `vm_indicators` scanned in `/proc/cpuinfo` (lines 89-92). -/
def vm_indicators : List String :=
  ["hypervisor", "vmware", "virtualbox", "kvm",
   "qemu", "xen", "bochs", "parallels"]

/-- VM indicators scanned in the `wmic` output (lines 113-116). -/
def wmiIndicators : List String :=
  ["vmware", "virtualbox", "microsoft corporation",
   "xen", "qemu", "parallels", "innotek", "bochs"]

/-- Whether a file view exists, is readable and its lower-cased content
contains one of the signatures. Missing or erroring files never match. -/
def fileMatches (v : FileView) (sigs : List String) : Bool :=
  match v with
  | .readable c => sigs.any (fun s => lowerContains c s)
  | _ => false

/-- `EnvironmentDetector.is_container` (lines 31-60).  One `try` block
wraps all three steps, so a read error on either cgroup file jumps to
the `except` handler and falls through to `return False`: the remaining
steps, including the environment-variable check, are skipped. -/
def is_container (env : Env) : Bool :=
  if env.proc1Cgroup = .readError then false
  else if fileMatches env.proc1Cgroup proc1Signatures then true
  else if env.procSelfCgroup = .readError then false
  else if fileMatches env.procSelfCgroup container_indicators then true
  else container_env_vars.any (fun v => env.envVars.contains v)

/-- Second sub-probe of `is_vm`: `/proc/cpuinfo` scan (lines 85-102);
its `try` catches every exception, so it is total and a missing or
unreadable file yields `false`. -/
def cpuinfoStep (env : Env) : Except String Bool :=
  match env.procCpuinfo with
  | .readable c => .ok (vm_indicators.any (fun s => lowerContains c s))
  | _ => .ok false

/-- `EnvironmentDetector.is_vm` (lines 62-102).  The first `try` block
catches only `TimeoutExpired`, `CalledProcessError` and
`FileNotFoundError`; any other exception from the `cpuid` invocation
escapes `is_vm` (modelled by `.error`).  A zero return code with a
hypervisor signature in the lower-cased stdout short-circuits to true;
otherwise the `/proc/cpuinfo` sub-probe decides. -/
def is_vm (env : Env) : Except String Bool :=
  match env.cpuid with
  | .unexpectedError msg => .error msg
  | .completed rc out =>
    if rc == 0 && vm_signatures.any (fun s => lowerContains out s) then .ok true
    else cpuinfoStep env
  | .caughtFailure => cpuinfoStep env

/-- `EnvironmentDetector.detect_vm_windows` (lines 104-123).  The whole
body sits in a catch-all `try`, so it never raises; it returns `True`
only when the command succeeded and an indicator matched, and on every
other path the Python function falls off the end, returning `None`. -/
def detect_vm_windows (env : Env) : Option Bool :=
  match env.wmic with
  | .completed rc out =>
    if rc == 0 && wmiIndicators.any (fun s => lowerContains out s) then
      some true
    else none
  | _ => none

/-- Python truthiness of an optional boolean (`None` is falsy). -/
def pyTruthy : Option Bool → Bool
  | none => false
  | some b => b

/-- `EnvironmentDetector.get_environment_type` (lines 125-142): the
priority chain with the defensive catch-all mapping any escaping
exception to `("unknown", -1)`. -/
def get_environment_type (env : Env) : String × Int :=
  if is_container env then ("container", 2)
  else
    match is_vm env with
    | .error _ => ("unknown", -1)
    | .ok true => ("vm", 1)
    | .ok false =>
      if pyTruthy (detect_vm_windows env) then ("vm", 1)
      else ("hardware", 0)

/-- State of the labeled gauge `ENVIRONMENT_TYPE`: the association of
label values to gauge values, in insertion order. -/
abbrev Gauge := List (String × Int)

/-- `gauge.labels(environment=name).set(v)`: update the child for
`name` in place if present, otherwise append it. -/
def Gauge.setLabel (g : Gauge) (name : String) (v : Int) : Gauge :=
  if g.any (fun p => p.1 == name) then
    g.map (fun p => if p.1 == name then (name, v) else p)
  else g ++ [(name, v)]

/-- `gauge.clear()`: remove every labeled child. -/
def Gauge.clear (_ : Gauge) : Gauge := []

/-- `update_metrics` (lines 144-161), parametrised by the outcome of
the `detector.get_environment_type()` call (`.error` models that call
raising, which the `except` branch of `update_metrics` handles by
setting the `error` label to -1 WITHOUT clearing first; the success
branch clears and then sets the returned label). -/
def update_metrics (r : Except String (String × Int)) (g : Gauge) : Gauge :=
  match r with
  | .ok (n, v) => Gauge.setLabel (Gauge.clear g) n v
  | .error _ => Gauge.setLabel g "error" (-1)

/-- What happens at the blocking `input("Press any button to exit")`
call: a line is entered (main returns, process exits 0), stdin is at
end-of-file (`EOFError`), or the user interrupts (`KeyboardInterrupt`). -/
inductive InputEvent
  | normal
  | eofError
  | interrupt
deriving DecidableEq

/-- The world `main` runs against: whether each port bind succeeds, the
outcome of the classification call inside `update_metrics`, and what
happens at the interactive prompt. -/
structure World where
  bind8080 : Bool
  bind8082 : Bool
  classifyOutcome : Except String (String × Int)
  inputEvent : InputEvent

/-- Observable outcome of one run of `main`: the ports whose bind was
attempted in order, the port actually bound (if any), the final gauge
state, and the process exit status. -/
structure MainResult where
  bindAttempts : List Nat
  boundPort : Option Nat
  gauge : Gauge
  exitCode : Nat
deriving DecidableEq

/-- Exit status resulting from the prompt: falling off `main` exits 0,
`EOFError` is caught by `except Exception` and maps to `sys.exit(1)`,
`KeyboardInterrupt` maps to `sys.exit(0)`. -/
def exitFor : InputEvent → Nat
  | .normal => 0
  | .eofError => 1
  | .interrupt => 0

/-- `main` (lines 163-185): update metrics, try port 8080, on failure
try 8082 once, and if that also fails let the exception propagate to
the outer handler, which exits 1.  With a bound port, block at the
prompt and exit per `exitFor`. -/
def main (w : World) (g : Gauge) : MainResult :=
  let g1 := update_metrics w.classifyOutcome g
  if w.bind8080 then
    ⟨[8080], some 8080, g1, exitFor w.inputEvent⟩
  else if w.bind8082 then
    ⟨[8080, 8082], some 8082, g1, exitFor w.inputEvent⟩
  else
    ⟨[8080, 8082], none, g1, 1⟩

/-- True when the `cpuid` sub-probe of `is_vm` yields no evidence: the
command completed but with a non-zero return code or without any
hypervisor signature in its output, or it failed with one of the caught
exception types. -/
def cpuidNoEvidence : CmdResult → Bool
  | .completed rc out => !(rc == 0 && vm_signatures.any (fun s => lowerContains out s))
  | .caughtFailure => true
  | .unexpectedError _ => false

/-- True when the `/proc/cpuinfo` sub-probe of `is_vm` yields no
evidence: the file is missing, unreadable, or contains no VM indicator. -/
def cpuinfoNoEvidence : FileView → Bool
  | .readable c => !(vm_indicators.any (fun s => lowerContains c s))
  | _ => true

/-- Probe results on a plain host: nothing matches, no faults. -/
def envClean : Env :=
  { proc1Cgroup := .absent
    procSelfCgroup := .absent
    procCpuinfo := .absent
    envVars := ["PATH", "HOME"]
    cpuid := .caughtFailure
    wmic := .caughtFailure }

/-- Probe results where both the container and the vm heuristics match. -/
def envBoth : Env :=
  { envClean with
    proc1Cgroup := .readable "12:devices:/docker/abc123"
    procCpuinfo := .readable "flags : fpu vme hypervisor"
    cpuid := .completed 0 "Hypervisor vendor: VMware" }

/-- Probe results where the `cpuid` invocation raises an exception
outside the tuple `is_vm` catches. -/
def envFault : Env :=
  { envClean with cpuid := .unexpectedError "boom" }

/-- Reading `/proc/1/cgroup` raises, but `DOCKER_CONTAINER` is set. -/
def envReadErrVar : Env :=
  { envClean with
    proc1Cgroup := .readError
    envVars := ["DOCKER_CONTAINER", "PATH"] }

/-- Reading `/proc/1/cgroup` raises, but `/proc/self/cgroup` is
readable and carries a container signature. -/
def envReadErrMatch : Env :=
  { envClean with
    proc1Cgroup := .readError
    procSelfCgroup := .readable "5:cpu:/docker/deadbeef" }

/-- Reading `/proc/self/cgroup` raises while `/proc/1/cgroup` is clean
and the `container` variable is set. -/
def envSelfErr : Env :=
  { envClean with
    procSelfCgroup := .readError
    envVars := ["container", "PATH"] }

/-- Only the Kubernetes service-host variable marks a container. -/
def envK8s : Env :=
  { envClean with envVars := ["KUBERNETES_SERVICE_HOST", "PATH"] }

/-- Only `/proc/cpuinfo` carries a VM indicator. -/
def envCpuinfoVm : Env :=
  { envClean with procCpuinfo := .readable "flags : fpu vme hypervisor" }

/-- Only the `cpuid` command output carries a hypervisor signature. -/
def envCpuidVm : Env :=
  { envClean with cpuid := .completed 0 "GenuineIntel VMwareVMware" }

/-- The `wmic` invocation raises; everything else is clean. -/
def envWmicBoom : Env :=
  { envClean with wmic := .unexpectedError "wmi blew up" }

/-- World where port 8080 is taken, 8082 is free, and the operator
interrupts at the prompt. -/
def worldFallback : World :=
  { bind8080 := false
    bind8082 := true
    classifyOutcome := .ok ("hardware", 0)
    inputEvent := .interrupt }

/-- World where both port binds fail. -/
def worldBothFail : World :=
  { bind8080 := false
    bind8082 := false
    classifyOutcome := .ok ("hardware", 0)
    inputEvent := .normal }

/-- World with a successful startup but stdin closed at the prompt. -/
def worldEof : World :=
  { bind8080 := true
    bind8082 := true
    classifyOutcome := .ok ("container", 2)
    inputEvent := .eofError }

/-! ## Helper lemmas about the gauge -/

theorem Gauge.setLabel_mem (g : Gauge) (n : String) (v : Int) :
    (n, v) ∈ Gauge.setLabel g n v := by
  unfold Gauge.setLabel
  by_cases h : g.any (fun p => p.1 == n) = true
  · rw [if_pos h]
    obtain ⟨p, hp, hpn⟩ := List.any_eq_true.mp h
    exact List.mem_map.mpr ⟨p, hp, by simp [hpn]⟩
  · rw [if_neg h]
    exact List.mem_append_right _ (List.mem_singleton.mpr rfl)

theorem Gauge.setLabel_mem_of_ne (g : Gauge) (n : String) (v : Int)
    (p : String × Int) (hp : p ∈ g) (hne : p.1 ≠ n) :
    p ∈ Gauge.setLabel g n v := by
  unfold Gauge.setLabel
  by_cases h : g.any (fun q => q.1 == n) = true
  · rw [if_pos h]
    exact List.mem_map.mpr ⟨p, hp, by simp [hne]⟩
  · rw [if_neg h]
    exact List.mem_append_left _ hp

/-! ## Claim theorems -/

/-- C1: `get_environment_type` evaluates the probes in fixed priority
order: a positive container check yields `("container", 2)`; otherwise
a positive `is_vm` yields `("vm", 1)`; otherwise a positive
`detect_vm_windows` yields `("vm", 1)`; otherwise `("hardware", 0)`.
In particular, when both the container and the vm heuristics are
positive, the result is `("container", 2)`, never `("vm", 1)`. -/
theorem classify_priority_order (env : Env) :
    (is_container env = true → get_environment_type env = ("container", 2)) ∧
    (is_container env = false → is_vm env = Except.ok true →
      get_environment_type env = ("vm", 1)) ∧
    (is_container env = false → is_vm env = Except.ok false →
      pyTruthy (detect_vm_windows env) = true →
      get_environment_type env = ("vm", 1)) ∧
    (is_container env = false → is_vm env = Except.ok false →
      pyTruthy (detect_vm_windows env) = false →
      get_environment_type env = ("hardware", 0)) ∧
    (is_container env = true → is_vm env = Except.ok true →
      get_environment_type env = ("container", 2)) := by
  refine ⟨?_, ?_, ?_, ?_, ?_⟩
  · intro h1
    simp [get_environment_type, h1]
  · intro h1 h2
    simp [get_environment_type, h1, h2]
  · intro h1 h2 h3
    simp [get_environment_type, h1, h2, h3]
  · intro h1 h2 h3
    simp [get_environment_type, h1, h2, h3]
  · intro h1 _
    simp [get_environment_type, h1]

/-- Witness for C1 at a concrete environment where both the container
and the vm heuristics are positive. -/
theorem classify_priority_order_witness :
    is_container envBoth = true ∧ is_vm envBoth = Except.ok true ∧
    get_environment_type envBoth = ("container", 2) :=
  ⟨by rfl, by rfl, (classify_priority_order envBoth).2.2.2.2 (by rfl) (by rfl)⟩

/-- C2: the classification is total — for every environment
`get_environment_type` returns one of the four classification pairs —
and an unexpected exception escaping the probe chain (here: from the
`cpuid` invocation inside `is_vm`) is caught and mapped to
`("unknown", -1)` rather than propagating. -/
theorem classify_never_raises (env : Env) :
    (get_environment_type env = ("container", 2) ∨
     get_environment_type env = ("vm", 1) ∨
     get_environment_type env = ("hardware", 0) ∨
     get_environment_type env = ("unknown", -1)) ∧
    (∀ msg, is_container env = false → is_vm env = Except.error msg →
      get_environment_type env = ("unknown", -1)) := by
  constructor
  · by_cases hc : is_container env = true
    · simp [get_environment_type, hc]
    · rw [Bool.not_eq_true] at hc
      cases hv : is_vm env with
      | error e => simp [get_environment_type, hc, hv]
      | ok b =>
        cases b with
        | true => simp [get_environment_type, hc, hv]
        | false =>
          by_cases hw : pyTruthy (detect_vm_windows env) = true
          · simp [get_environment_type, hc, hv, hw]
          · rw [Bool.not_eq_true] at hw
            simp [get_environment_type, hc, hv, hw]
  · intro msg h1 h2
    simp [get_environment_type, h1, h2]

/-- Witness for C2 at a concrete environment whose `cpuid` probe raises
an exception outside the caught tuple. -/
theorem classify_never_raises_witness :
    get_environment_type envFault = ("unknown", -1) :=
  (classify_never_raises envFault).2 "boom" rfl rfl

/-- C3 counterexample: reading `/proc/1/cgroup` raises while
`DOCKER_CONTAINER` is set, yet `is_container` returns `false` — the
single `try` block around all three steps means a read failure aborts
the whole chain instead of continuing with the remaining steps. -/
theorem is_container_continue_cex :
    envReadErrVar.proc1Cgroup = FileView.readError ∧
    envReadErrVar.envVars.contains "DOCKER_CONTAINER" = true ∧
    is_container envReadErrVar = false :=
  ⟨rfl, by rfl, by rfl⟩

/-- C3 amended: an I/O failure while reading a cgroup file is caught
(and logged at warning level), but it aborts the entire detection —
`is_container` returns `false` immediately, skipping the remaining
steps, including the environment-variable check. -/
theorem is_container_readError_aborts (env : Env) :
    (env.proc1Cgroup = FileView.readError → is_container env = false) ∧
    (fileMatches env.proc1Cgroup proc1Signatures = false →
      env.procSelfCgroup = FileView.readError → is_container env = false) := by
  constructor
  · intro h
    simp [is_container, h]
  · intro h1 h2
    unfold is_container
    by_cases h0 : env.proc1Cgroup = FileView.readError
    · rw [if_pos h0]
    · rw [if_neg h0, h1, if_neg (by simp), if_pos h2]

/-- Witness for the amended C3: concrete environments where a cgroup
read failure suppresses a positive environment-variable signal. -/
theorem is_container_readError_aborts_witness :
    is_container envReadErrVar = false ∧ is_container envSelfErr = false :=
  ⟨(is_container_readError_aborts envReadErrVar).1 rfl,
   (is_container_readError_aborts envSelfErr).2 (by rfl) rfl⟩

/-- C4 counterexample: starting from an empty gauge, a successful
update publishing `("container", 2)` followed by an update whose
classification call throws leaves TWO labels on the gauge — the error
branch of `update_metrics` sets `error` to -1 without clearing first. -/
theorem update_metrics_single_label_cex :
    update_metrics (Except.error "fault")
        (update_metrics (Except.ok ("container", 2)) []) =
      [("container", 2), ("error", -1)] ∧
    (update_metrics (Except.error "fault")
        (update_metrics (Except.ok ("container", 2)) [])).length ≠ 1 := by
  refine ⟨by rfl, ?_⟩
  intro h
  rw [(by rfl : update_metrics (Except.error "fault")
        (update_metrics (Except.ok ("container", 2)) []) =
      [("container", 2), ("error", -1)])] at h
  simp at h

/-- C4 amended: a success-path call to `update_metrics` clears the
gauge and leaves exactly the one label returned by the classification,
so after any sequence ending in a success-path call exactly one label
is set; but the error branch sets the `error` label without clearing,
so every label already on the gauge (other than `error` itself)
survives next to `("error", -1)`. -/
theorem update_metrics_label_discipline (g : Gauge) :
    (∀ n v, update_metrics (Except.ok (n, v)) g = [(n, v)]) ∧
    (∀ e, update_metrics (Except.error e) g = Gauge.setLabel g "error" (-1)) ∧
    (∀ e, ("error", -1) ∈ update_metrics (Except.error e) g) ∧
    (∀ e p, p ∈ g → p.1 ≠ "error" → p ∈ update_metrics (Except.error e) g) :=
  ⟨fun _ _ => rfl,
   fun _ => rfl,
   fun _ => Gauge.setLabel_mem g "error" (-1),
   fun _ p hp hne => Gauge.setLabel_mem_of_ne g "error" (-1) p hp hne⟩

/-- Witness for the amended C4: a success-path update replaces the old
label, and the error branch keeps the stale label next to `error`. -/
theorem update_metrics_label_discipline_witness :
    update_metrics (Except.ok ("vm", 1)) [("hardware", 0)] = [("vm", 1)] ∧
    ("container", 2) ∈ update_metrics (Except.error "fault") [("container", 2)] :=
  ⟨(update_metrics_label_discipline [("hardware", 0)]).1 "vm" 1,
   (update_metrics_label_discipline [("container", 2)]).2.2.2 "fault"
     ("container", 2) (List.mem_singleton.mpr rfl) (by decide)⟩

/-- C5 counterexample: `/proc/self/cgroup` is readable and contains the
container signature `docker`, yet `is_container` returns `false`,
because the read of `/proc/1/cgroup` raised and the shared `try` block
aborted the chain before the second file was consulted. -/
theorem is_container_spec_cex :
    envReadErrMatch.procSelfCgroup = FileView.readable "5:cpu:/docker/deadbeef" ∧
    lowerContains "5:cpu:/docker/deadbeef" "docker" = true ∧
    is_container envReadErrMatch = false :=
  ⟨rfl, by rfl, by rfl⟩

/-- C5 amended: provided neither cgroup read raises (each file is
absent or readable), `is_container` returns true exactly when
`/proc/1/cgroup` matches its signatures, `/proc/self/cgroup` matches
its indicator list (both case-insensitively), or one of the three
container environment variables is present — and false otherwise. -/
theorem is_container_fault_free (env : Env)
    (h1 : env.proc1Cgroup ≠ FileView.readError)
    (h2 : env.procSelfCgroup ≠ FileView.readError) :
    is_container env =
      (fileMatches env.proc1Cgroup proc1Signatures ||
       fileMatches env.procSelfCgroup container_indicators ||
       container_env_vars.any (fun v => env.envVars.contains v)) := by
  unfold is_container
  rw [if_neg h1]
  by_cases hm1 : fileMatches env.proc1Cgroup proc1Signatures = true
  · simp [hm1]
  · rw [Bool.not_eq_true] at hm1
    rw [hm1, if_neg (by simp), if_neg h2]
    by_cases hm2 : fileMatches env.procSelfCgroup container_indicators = true
    · simp [hm2]
    · rw [Bool.not_eq_true] at hm2
      simp [hm2]

/-- Witness for the amended C5: with fault-free reads, a set
`KUBERNETES_SERVICE_HOST` yields true and a clean host yields false. -/
theorem is_container_fault_free_witness :
    is_container envK8s = true ∧ is_container envClean = false :=
  ⟨(is_container_fault_free envK8s (by decide) (by decide)).trans (by rfl),
   (is_container_fault_free envClean (by decide) (by decide)).trans (by rfl)⟩

/-- Helper: when `/proc/cpuinfo` is missing, unreadable, or free of VM
indicators, the second sub-probe of `is_vm` reports no evidence. -/
theorem cpuinfoStep_noEvidence (env : Env)
    (h : cpuinfoNoEvidence env.procCpuinfo = true) :
    cpuinfoStep env = Except.ok false := by
  cases hf : env.procCpuinfo with
  | readable c =>
    rw [hf] at h
    simp only [cpuinfoNoEvidence, Bool.not_eq_eq_eq_not, Bool.not_true] at h
    simp [cpuinfoStep, hf, h]
  | absent => simp [cpuinfoStep, hf]
  | readError => simp [cpuinfoStep, hf]

/-- C6: `is_vm` returns true whenever the CPU-id command completed with
return code 0 and a hypervisor signature in its lower-cased output;
true whenever (absent an uncaught fault from the CPU-id call)
`/proc/cpuinfo` is readable and contains a VM indicator after
lower-casing; and false when the CPU-id probe yields no evidence
(completed without signature or return code non-zero, or failed with a
caught exception) and the cpuinfo probe yields none either. -/
theorem is_vm_evidence (env : Env) :
    (∀ out, env.cpuid = CmdResult.completed 0 out →
      vm_signatures.any (fun s => lowerContains out s) = true →
      is_vm env = Except.ok true) ∧
    (∀ content, (∀ msg, env.cpuid ≠ CmdResult.unexpectedError msg) →
      env.procCpuinfo = FileView.readable content →
      vm_indicators.any (fun s => lowerContains content s) = true →
      is_vm env = Except.ok true) ∧
    (cpuidNoEvidence env.cpuid = true →
      cpuinfoNoEvidence env.procCpuinfo = true →
      is_vm env = Except.ok false) := by
  refine ⟨?_, ?_, ?_⟩
  · intro out h hm
    simp [is_vm, h, hm]
  · intro content hne hfile hm
    cases hc : env.cpuid with
    | unexpectedError msg => exact absurd hc (hne msg)
    | caughtFailure => simp [is_vm, hc, cpuinfoStep, hfile, hm]
    | completed rc out =>
      by_cases hcond :
          (rc == 0 && vm_signatures.any (fun s => lowerContains out s)) = true
      · simp [is_vm, hc, hcond]
      · rw [Bool.not_eq_true] at hcond
        simp [is_vm, hc, hcond, cpuinfoStep, hfile, hm]
  · intro h1 h2
    cases hc : env.cpuid with
    | unexpectedError msg =>
      rw [hc] at h1
      simp [cpuidNoEvidence] at h1
    | caughtFailure =>
      simp only [is_vm, hc]
      exact cpuinfoStep_noEvidence env h2
    | completed rc out =>
      rw [hc] at h1
      have hcond :
          (rc == 0 && vm_signatures.any (fun s => lowerContains out s)) = false := by
        simpa only [cpuidNoEvidence, Bool.not_eq_eq_eq_not, Bool.not_true] using h1
      simp only [is_vm, hc, hcond, Bool.false_eq_true, if_false]
      exact cpuinfoStep_noEvidence env h2

/-- Witness for C6: a signature in the CPU-id output, an indicator in
`/proc/cpuinfo`, and a clean host, each at a concrete environment. -/
theorem is_vm_evidence_witness :
    is_vm envCpuidVm = Except.ok true ∧
    is_vm envCpuinfoVm = Except.ok true ∧
    is_vm envClean = Except.ok false :=
  ⟨(is_vm_evidence envCpuidVm).1 "GenuineIntel VMwareVMware" (by rfl) (by rfl),
   (is_vm_evidence envCpuinfoVm).2.1 "flags : fpu vme hypervisor"
     (by intro msg h; simp [envCpuinfoVm, envClean] at h) (by rfl) (by rfl),
   (is_vm_evidence envClean).2.2 (by rfl) (by rfl)⟩

/-- C7: `main` tries the preferred port 8080 first; on a bind failure
it retries exactly once, on the fallback 8082, and never again; when
both binds fail the exit status is 1 (non-zero); a graceful interrupt
at the prompt, with a port bound, exits with status 0. -/
theorem main_port_fallback (w : World) (g : Gauge) :
    (w.bind8080 = true →
      (main w g).bindAttempts = [8080] ∧ (main w g).boundPort = some 8080) ∧
    (w.bind8080 = false → (main w g).bindAttempts = [8080, 8082]) ∧
    (w.bind8080 = false → w.bind8082 = true →
      (main w g).boundPort = some 8082) ∧
    (w.bind8080 = false → w.bind8082 = false →
      (main w g).boundPort = none ∧ (main w g).exitCode = 1 ∧
      (main w g).exitCode ≠ 0) ∧
    ((main w g).boundPort.isSome = true → w.inputEvent = InputEvent.interrupt →
      (main w g).exitCode = 0) := by
  refine ⟨?_, ?_, ?_, ?_, ?_⟩
  · intro h
    constructor <;> simp [main, h]
  · intro h
    by_cases h2 : w.bind8082 = true
    · simp [main, h, h2]
    · rw [Bool.not_eq_true] at h2
      simp [main, h, h2]
  · intro h h2
    simp [main, h, h2]
  · intro h h2
    refine ⟨?_, ?_, ?_⟩ <;> simp [main, h, h2]
  · intro hb hi
    by_cases h : w.bind8080 = true
    · simp [main, h, hi, exitFor]
    · rw [Bool.not_eq_true] at h
      by_cases h2 : w.bind8082 = true
      · simp [main, h, h2, hi, exitFor]
      · rw [Bool.not_eq_true] at h2
        rw [show (main w g).boundPort = none from by simp [main, h, h2]] at hb
        simp at hb

/-- Witness for C7: with 8080 taken and 8082 free, both ports are
attempted in order and an interrupt exits 0; with both taken, exit 1. -/
theorem main_port_fallback_witness :
    (main worldFallback []).bindAttempts = [8080, 8082] ∧
    (main worldFallback []).exitCode = 0 ∧
    (main worldBothFail []).exitCode = 1 :=
  ⟨(main_port_fallback worldFallback []).2.1 (by rfl),
   (main_port_fallback worldFallback []).2.2.2.2 (by rfl) (by rfl),
   ((main_port_fallback worldBothFail []).2.2.2.1 (by rfl) (by rfl)).2.1⟩

/-- C8: when the classification call inside `update_metrics` throws,
the handler runs `ENVIRONMENT_TYPE.labels(environment="error").set(-1)`
— so the resulting gauge is exactly `setLabel g "error" (-1)` and holds
the pair `("error", -1)` — and `update_metrics` returns a gauge rather
than propagating the exception. -/
theorem update_metrics_error_branch (e : String) (g : Gauge) :
    update_metrics (Except.error e) g = Gauge.setLabel g "error" (-1) ∧
    ("error", -1) ∈ update_metrics (Except.error e) g :=
  ⟨rfl, Gauge.setLabel_mem g "error" (-1)⟩

/-- C9: `detect_vm_windows` never raises and never returns `false`: a
`some` result is always `some true` and only arises from a completed
command with return code 0 whose lower-cased output contains an
indicator; every other path — including an exception from the command —
yields `none`, which `get_environment_type` treats as a non-match via
Python falsiness, falling through to `("hardware", 0)`. -/
theorem detect_vm_windows_tri (env : Env) :
    (∀ b, detect_vm_windows env = some b →
      b = true ∧ ∃ rc out, env.wmic = CmdResult.completed rc out ∧ rc = 0 ∧
        wmiIndicators.any (fun s => lowerContains out s) = true) ∧
    (detect_vm_windows env ≠ some false) ∧
    (∀ msg, env.wmic = CmdResult.unexpectedError msg →
      detect_vm_windows env = none) ∧
    (is_container env = false → is_vm env = Except.ok false →
      detect_vm_windows env = none →
      get_environment_type env = ("hardware", 0)) := by
  have key : ∀ b, detect_vm_windows env = some b →
      b = true ∧ ∃ rc out, env.wmic = CmdResult.completed rc out ∧ rc = 0 ∧
        wmiIndicators.any (fun s => lowerContains out s) = true := by
    intro b h
    cases hw : env.wmic with
    | completed rc out =>
      simp only [detect_vm_windows, hw] at h
      by_cases hcond :
          (rc == 0 && wmiIndicators.any (fun s => lowerContains out s)) = true
      · rw [if_pos hcond] at h
        rw [Bool.and_eq_true] at hcond
        obtain ⟨hrc, hany⟩ := hcond
        exact ⟨(Option.some_inj.mp h).symm, rc, out, hw ▸ rfl, beq_iff_eq.mp hrc, hany⟩
      · rw [if_neg hcond] at h
        exact Option.noConfusion h
    | caughtFailure =>
      simp only [detect_vm_windows, hw] at h
      exact Option.noConfusion h
    | unexpectedError msg =>
      simp only [detect_vm_windows, hw] at h
      exact Option.noConfusion h
  refine ⟨key, ?_, ?_, ?_⟩
  · intro h
    exact Bool.false_ne_true (key false h).1
  · intro msg h
    simp [detect_vm_windows, h]
  · intro h1 h2 h3
    simp [get_environment_type, h1, h2, h3, pyTruthy]

/-- Witness for C9: a raising `wmic` call yields `none`, and on a clean
host the `none` falls through to the hardware classification. -/
theorem detect_vm_windows_tri_witness :
    detect_vm_windows envWmicBoom = none ∧
    get_environment_type envClean = ("hardware", 0) :=
  ⟨(detect_vm_windows_tri envWmicBoom).2.2.1 "wmi blew up" (by rfl),
   (detect_vm_windows_tri envClean).2.2.2 (by rfl) (by rfl) (by rfl)⟩

/-- C10: with a port bound (successful startup), end-of-file at the
`input("Press any button to exit")` prompt raises `EOFError`, which the
generic `except Exception` handler turns into `sys.exit(1)` — the
process exits 1, not 0, despite no startup failure. -/
theorem main_eof_exit_one (w : World) (g : Gauge)
    (hb : (main w g).boundPort.isSome = true)
    (he : w.inputEvent = InputEvent.eofError) :
    (main w g).exitCode = 1 ∧ (main w g).exitCode ≠ 0 := by
  by_cases h : w.bind8080 = true
  · constructor <;> simp [main, h, he, exitFor]
  · rw [Bool.not_eq_true] at h
    by_cases h2 : w.bind8082 = true
    · constructor <;> simp [main, h, h2, he, exitFor]
    · rw [Bool.not_eq_true] at h2
      rw [show (main w g).boundPort = none from by simp [main, h, h2]] at hb
      simp at hb

/-- Witness for C10: port 8080 binds, stdin is closed, exit status 1. -/
theorem main_eof_exit_one_witness : (main worldEof []).exitCode = 1 :=
  (main_eof_exit_one worldEof [] (by rfl) rfl).1

end Kasper
